import Mathlib

/- Verification development for the basketball league backend: the document
store, the REST route handlers of routes/games.js and the teams/players
routers, the Team pre-save hook of models/Team.js, and the socket.io
real-time layer wired in server.js, sockets/gameSockets.js and
middleware/socketAuth.js, embedded shallowly from the JavaScript source. -/

/-- User role, as used across the routers and middleware
(admin, coach, player). -/
inductive Role
  | admin
  | coach
  | player
deriving DecidableEq, Repr

/-- Player position enumeration from the Player schema
(PG, SG, SF, PF, C). -/
inductive Pos
  | PG
  | SG
  | SF
  | PF
  | C
deriving DecidableEq, Repr

/-- Game status enumeration from models/Game.js
(scheduled, in_progress, completed, cancelled). -/
inductive GameStatus
  | scheduled
  | inProgress
  | completed
  | cancelled
deriving DecidableEq, Repr

/-- Model.findById / findOne keyed on the _id field: first document in the
collection whose key equals the requested id. -/
def findBy {α : Type} (f : α → String) (id : String) : List α → Option α
  | [] => none
  | x :: xs => if f x = id then some x else findBy f id xs

/-- Model.findOne with an arbitrary query predicate: first document
satisfying the predicate. -/
def findWhere {α : Type} (p : α → Prop) [DecidablePred p] : List α → Option α
  | [] => none
  | x :: xs => if p x then some x else findWhere p xs

/-- Model.findByIdAndUpdate: apply the update to the documents whose _id
matches.  MongoDB enforces _id uniqueness, so at most one document matches
and transforming every match coincides with transforming the single one. -/
def updateBy {α : Type} (f : α → String) (id : String) (g : α → α) : List α → List α
  | [] => []
  | x :: xs => (if f x = id then g x else x) :: updateBy f id g xs

/-- Model.findByIdAndDelete: remove the documents whose _id matches (at most
one, by _id uniqueness). -/
def removeBy {α : Type} (f : α → String) (id : String) : List α → List α
  | [] => []
  | x :: xs => if f x = id then removeBy f id xs else x :: removeBy f id xs

/-- Model.updateMany: apply the update to every document matching the
query predicate. -/
def updateWhere {α : Type} (p : α → Prop) [DecidablePred p] (g : α → α)
    (l : List α) : List α :=
  l.map fun x => if p x then g x else x

/-- The $pull array-update operator: drop every occurrence of the value. -/
def pullAll (x : String) : List String → List String
  | [] => []
  | y :: ys => if y = x then pullAll x ys else y :: pullAll x ys

/-- The $addToSet array-update operator: append the value unless already
present. -/
def addToSet (l : List String) (x : String) : List String :=
  if x ∈ l then l else l ++ [x]

/-- validator.js isMongoId as applied by express-validator: a 24 character
hexadecimal string. -/
def isMongoId (s : String) : Bool :=
  s.length == 24 && s.toList.all fun c =>
    c.isDigit || ('a' ≤ c && c ≤ 'f') || ('A' ≤ c && c ≤ 'F')

theorem findBy_key {α : Type} (f : α → String) (id : String) (l : List α) (x : α)
    (h : findBy f id l = some x) : f x = id := by
  induction l with
  | nil => simp [findBy] at h
  | cons y ys ih =>
    by_cases hy : f y = id
    · simp only [findBy, if_pos hy] at h
      cases h
      exact hy
    · simp only [findBy, if_neg hy] at h
      exact ih h

theorem findBy_updateBy_self {α : Type} (f : α → String) (id : String) (g : α → α)
    (hg : ∀ x, f (g x) = f x) (l : List α) :
    findBy f id (updateBy f id g l) = Option.map g (findBy f id l) := by
  induction l with
  | nil => simp [findBy, updateBy]
  | cons y ys ih =>
    by_cases hy : f y = id
    · simp [findBy, updateBy, if_pos hy, hg, hy]
    · simp [findBy, updateBy, if_neg hy, hy, ih]

theorem findBy_updateBy_ne {α : Type} (f : α → String) (qid id : String) (g : α → α)
    (hg : ∀ x, f (g x) = f x) (hne : qid ≠ id) (l : List α) :
    findBy f qid (updateBy f id g l) = findBy f qid l := by
  induction l with
  | nil => simp [findBy, updateBy]
  | cons y ys ih =>
    by_cases hy : f y = id
    · have : f (g y) ≠ qid := by
        rw [hg, hy]
        exact fun hq => hne hq.symm
      have hyq : f y ≠ qid := by
        rw [hy]
        exact fun hq => hne hq.symm
      simp [findBy, updateBy, if_pos hy, this, hyq, ih]
    · simp only [findBy, updateBy, if_neg hy]
      by_cases hq : f y = qid
      · simp [findBy, hq]
      · simp [findBy, hq, ih]

theorem findBy_removeBy_self {α : Type} (f : α → String) (id : String) (l : List α) :
    findBy f id (removeBy f id l) = none := by
  induction l with
  | nil => simp [findBy, removeBy]
  | cons y ys ih =>
    by_cases hy : f y = id
    · simp [removeBy, if_pos hy, ih]
    · simp [removeBy, if_neg hy, findBy, hy, ih]

theorem findBy_removeBy_ne {α : Type} (f : α → String) (qid id : String)
    (hne : qid ≠ id) (l : List α) :
    findBy f qid (removeBy f id l) = findBy f qid l := by
  induction l with
  | nil => simp [findBy, removeBy]
  | cons y ys ih =>
    by_cases hy : f y = id
    · have hyq : f y ≠ qid := by
        rw [hy]
        exact fun hq => hne hq.symm
      simp [removeBy, if_pos hy, findBy, hyq, ih]
    · simp only [removeBy, if_neg hy]
      by_cases hq : f y = qid
      · simp [findBy, hq]
      · simp [findBy, hq, ih]

theorem mem_updateBy_of_ne {α : Type} (f : α → String) (id : String) (g : α → α)
    (l : List α) (x : α) (hx : x ∈ l) (h : f x ≠ id) : x ∈ updateBy f id g l := by
  induction l with
  | nil => cases hx
  | cons y ys ih =>
    cases hx with
    | head =>
      simp [updateBy, if_neg h]
    | tail _ hmem =>
      simp only [updateBy]
      exact List.mem_cons_of_mem _ (ih hmem)

theorem not_mem_pullAll (x : String) (l : List String) : x ∉ pullAll x l := by
  induction l with
  | nil => simp [pullAll]
  | cons y ys ih =>
    by_cases hy : y = x
    · simpa [pullAll, if_pos hy] using ih
    · simp only [pullAll, if_neg hy, List.mem_cons]
      rintro (rfl | hmem)
      · exact hy rfl
      · exact ih hmem

theorem findWhere_eq_none {α : Type} (p : α → Prop) [DecidablePred p] (l : List α) :
    findWhere p l = none ↔ ∀ x ∈ l, ¬ p x := by
  induction l with
  | nil => simp [findWhere]
  | cons y ys ih =>
    by_cases hy : p y
    · simp [findWhere, if_pos hy, hy]
    · simp [findWhere, if_neg hy, hy, ih]

theorem findBy_append_right {α : Type} (f : α → String) (id : String) (l : List α)
    (x : α) (hl : findBy f id l = none) (hx : f x = id) :
    findBy f id (l ++ [x]) = some x := by
  induction l with
  | nil => simp [findBy, hx]
  | cons y ys ih =>
    by_cases hy : f y = id
    · simp [findBy, if_pos hy] at hl
    · simp only [findBy, if_neg hy] at hl
      simpa only [List.cons_append, findBy, if_neg hy] using ih hl

/-- Modelled from the spec: models/User.js is not under src/.  Section 3 of
the spec describes the User document as identity, credential hash, role
(player/coach/admin), an optional managed team list for coaches and optional
single team / player-profile back-references for players.  The credential
hash plays no part in any claim and is omitted. -/
structure StoredUser where
  id : String
  name : String
  role : Role
  team : Option String
  playerProfile : Option String
  managedTeams : List String
deriving DecidableEq, Repr

/-- Team colors sub-document from models/Team.js. -/
structure Colors where
  primary : String
  secondary : String
deriving DecidableEq, Repr

/-- Team stats sub-document from models/Team.js: wins, losses and the
derived winPercentage.  Numbers are modelled exactly as rationals. -/
structure TeamStats where
  wins : Nat
  losses : Nat
  winPercentage : ℚ
deriving DecidableEq, Repr

/-- Team document from models/Team.js. -/
structure Team where
  id : String
  name : String
  coach : String
  description : Option String
  foundedYear : Option Int
  homeVenue : Option String
  colors : Colors
  logo : Option String
  isActive : Bool
  players : List String
  stats : TeamStats
  createdAt : Int
deriving DecidableEq, Repr

/-- Per-game average stats sub-document from the Player schema. -/
structure PlayerStats where
  pointsPerGame : ℚ
  reboundsPerGame : ℚ
  assistsPerGame : ℚ
  stealsPerGame : ℚ
  blocksPerGame : ℚ
deriving DecidableEq, Repr

/-- Player document from the Player schema (src/unnamed/part_001).  The team
reference is optional because the remove-from-team route sets it to null and
the delete-team route unsets it. -/
structure Player where
  id : String
  name : String
  user : String
  team : Option String
  position : Pos
  jerseyNumber : Int
  height : String
  weight : Int
  age : Int
  stats : PlayerStats
  isActive : Bool
  createdAt : Int
deriving DecidableEq, Repr

/-- Embedded per-player boxscore line from models/Game.js. -/
structure GameStat where
  player : String
  points : Int
  rebounds : Int
  assists : Int
  steals : Int
  blocks : Int
  minutesPlayed : Int
deriving DecidableEq, Repr

/-- Game document from models/Game.js (the schema at the named path, which
stores homeTeam and awayTeam as free-text strings).  routes/games.js
imports this schema. -/
structure Game where
  id : String
  homeTeam : String
  awayTeam : String
  homeScore : Int
  awayScore : Int
  gameDate : Int
  status : GameStatus
  quarter : Int
  timeRemaining : String
  venue : Option String
  attendance : Option Int
  gameStats : List GameStat
  createdAt : Int
deriving DecidableEq, Repr

/-- The document store: one collection per model. -/
structure Store where
  users : List StoredUser
  teams : List Team
  players : List Player
  games : List Game
deriving DecidableEq, Repr

def Store.findUser (st : Store) (id : String) : Option StoredUser :=
  findBy StoredUser.id id st.users

def Store.findTeam (st : Store) (id : String) : Option Team :=
  findBy Team.id id st.teams

def Store.findPlayer (st : Store) (id : String) : Option Player :=
  findBy Player.id id st.players

def Store.findGame (st : Store) (id : String) : Option Game :=
  findBy Game.id id st.games

/-- The user identity that the protect middleware attaches to the request;
route handlers read req.user.id and req.user.role. -/
structure AuthUser where
  id : String
  role : Role
deriving DecidableEq, Repr

/-- Payload of a JSON route response: the populated document returned under
the data key, if any. -/
inductive RespData
  | nothing
  | gameDoc (g : Game)
  | teamDoc (t : Team)
  | playerDoc (p : Player)
deriving DecidableEq, Repr

/-- A JSON route response: HTTP status, the success flag, the message field
when present, and the data field when present. -/
structure Response where
  status : Nat
  success : Bool
  message : Option String
  data : RespData
deriving DecidableEq, Repr

/-- An error response: success false, a message, no data. -/
def errResp (status : Nat) (msg : String) : Response :=
  { status := status, success := false, message := some msg, data := RespData.nothing }

/-- The 400 response produced when express-validator reports errors. -/
def vErr : Response := errResp 400 "Validation errors"

/-- The user document slice attached to the socket by protectSocket
(User.findById(decoded.id).select("role name")). -/
structure SockUser where
  id : String
  name : String
  role : Role
deriving DecidableEq, Repr

/-- A socket.io connection: its id, the namespace it connected to, the user
attached by middleware (if any), and the rooms it has joined.  Rooms are
namespace-scoped in socket.io, so the joined list names rooms of this
connection's own namespace. -/
structure Conn where
  sid : Nat
  nsp : String
  user : Option SockUser
  joined : List String
deriving DecidableEq, Repr

/-- Target of a server-side emit: either a room of a given namespace, or a
single socket. -/
inductive EmitTarget
  | room (nsp : String) (r : String)
  | direct (sid : Nat)
deriving DecidableEq, Repr

/-- The raw updateGame payload pushed by a client over the channel: the
handler reads only its gameId field; the rest is arbitrary JSON carried
through untouched, modelled as a key-value list. -/
structure UpdateData where
  gameId : String
  rest : List (String × String)
deriving DecidableEq, Repr

/-- Payload of a server-side emit: a persisted game document (REST score
path) or a raw client update payload (channel path). -/
inductive Payload
  | gameDoc (g : Game)
  | updatePayload (d : UpdateData)
  | text (s : String)
deriving DecidableEq, Repr

/-- One server-side emit: target, event name, payload. -/
structure Emit where
  target : EmitTarget
  event : String
  payload : Payload
deriving DecidableEq, Repr

/-- The main (default) socket.io namespace.  io.use registers middleware
here and io.to targets rooms here. -/
def mainNamespace : String := "/"

/-- The namespace created by initGameSockets via io.of("/api/game"); the
joinGame/updateGame/disconnect handlers are registered on its
connections. -/
def gameNamespace : String := "/api/game"

/-- protectSocket from middleware/socketAuth.js: reads the handshake token,
verifies it (jwt.verify modelled as a parameter mapping a token string to
the decoded user id, none when verification throws), loads the user, and
attaches it; otherwise calls next with an error. -/
def protectSocket (verify : String → Option String) (st : Store)
    (token : Option String) : Except String SockUser :=
  match token with
  | none => Except.error "No token provided"
  | some t =>
    match verify t with
    | none => Except.error "Unauthorized"
    | some uid =>
      match st.findUser uid with
      | none => Except.error "User not found"
      | some u => Except.ok { id := u.id, name := u.name, role := u.role }

/-- Result of a connection handshake. -/
inductive ConnectResult
  | rejected (err : String)
  | accepted (c : Conn)
deriving DecidableEq, Repr

/-- A client handshake against the server of server.js.  io.use(protectSocket)
registers the middleware on the main namespace only: socket.io does not
propagate main-namespace middleware to custom namespaces, and no middleware
is ever registered on the io.of("/api/game") namespace, so a handshake with
that namespace is accepted without any token check and without attaching a
user. -/
def connectSocket (verify : String → Option String) (st : Store) (nsp : String)
    (sid : Nat) (token : Option String) : ConnectResult :=
  if nsp = mainNamespace then
    match protectSocket verify st token with
    | Except.error e => ConnectResult.rejected e
    | Except.ok u =>
      ConnectResult.accepted { sid := sid, nsp := nsp, user := some u, joined := [] }
  else
    ConnectResult.accepted { sid := sid, nsp := nsp, user := none, joined := [] }

/-- A client-to-server event on the real-time channel. -/
inductive ClientEvent
  | joinGame (gameId : String)
  | updateGame (d : UpdateData)
  | disconnect
deriving DecidableEq, Repr

/-- The joinGame handler of sockets/gameSockets.js: socket.join(gameId),
unconditionally (rooms are scoped to the socket's own namespace). -/
def joinGameHandler (c : Conn) (gameId : String) : Conn :=
  { c with joined := gameId :: c.joined }

/-- The updateGame handler of sockets/gameSockets.js: when the attached
user's role is admin or coach, io.to(updateData.gameId) rebroadcasts the raw
payload as gameUpdated; io.to targets the room of the main namespace.  The
handler never touches the document store. -/
def updateGameHandler (st : Store) (c : Conn) (d : UpdateData) : Store × List Emit :=
  match c.user with
  | some u =>
    if u.role = Role.admin ∨ u.role = Role.coach then
      (st, [{ target := EmitTarget.room mainNamespace d.gameId,
              event := "gameUpdated",
              payload := Payload.updatePayload d }])
    else (st, [])
  | none => (st, [])

/-- Dispatch of a client event: initGameSockets registers handlers only on
connections of the io.of("/api/game") namespace, so events from sockets of
any other namespace have no handler and are ignored.  The disconnect handler
only logs. -/
def dispatchEvent (st : Store) (c : Conn) (ev : ClientEvent) :
    Store × Conn × List Emit :=
  if c.nsp = gameNamespace then
    match ev with
    | ClientEvent.joinGame gid => (st, joinGameHandler c gid, [])
    | ClientEvent.updateGame d =>
      let out := updateGameHandler st c d
      (out.1, c, out.2)
    | ClientEvent.disconnect => (st, c, [])
  else (st, c, [])

/-- Whether a connection receives a given emit: a room emit reaches the
sockets of that namespace that joined that room; a direct emit reaches the
socket with that id. -/
def receivesEmit (c : Conn) (e : Emit) : Bool :=
  match e.target with
  | EmitTarget.room n r => decide (n = c.nsp) && decide (r ∈ c.joined)
  | EmitTarget.direct s => decide (s = c.sid)

/-- The emits of a log that a connection receives under a given event
name. -/
def deliveries (c : Conn) (log : List Emit) (ev : String) : List Emit :=
  log.filter fun e => receivesEmit c e && decide (e.event = ev)

/-- Body of PUT /api/games/:id/score.  express-validator isInt turns a
missing or non-integer field into a validation error; each field is
therefore an optional integer. -/
structure ScoreBody where
  homeScore : Option Int
  awayScore : Option Int
deriving DecidableEq, Repr

/-- Check a schema constraint on an optional update field: absent fields
are not validated. -/
def optAll {α : Type} (o : Option α) (p : α → Bool) : Bool :=
  match o with
  | none => true
  | some x => p x

/-- PUT /api/games/:id/score from routes/games.js.  protect/authorize are
modelled from the spec (middleware/auth.js is not under src/): a missing
identity is rejected 401 and a role outside the allow-list 403.  On success
the handler persists the two scores with findByIdAndUpdate, emits the
updated document once via io.to(game._id.toString()) — a room of the main
namespace — and responds 200 with the updated document. -/
def updateScoreRoute (st : Store) (actor : Option AuthUser) (gid : String)
    (body : ScoreBody) : Store × List Emit × Response :=
  match actor with
  | none => (st, [], errResp 401 "Not authorized")
  | some a =>
    if a.role ∈ [Role.admin, Role.coach] then
      match body.homeScore, body.awayScore with
      | some hs, some aws =>
        if 0 ≤ hs ∧ 0 ≤ aws then
          match st.findGame gid with
          | none => (st, [], errResp 404 "Game not found")
          | some g =>
            let g2 : Game := { g with homeScore := hs, awayScore := aws }
            let st2 : Store :=
              { st with games := updateBy Game.id gid (fun g0 =>
                  { g0 with homeScore := hs, awayScore := aws }) st.games }
            (st2,
             [{ target := EmitTarget.room mainNamespace g2.id,
                event := "gameUpdated",
                payload := Payload.gameDoc g2 }],
             { status := 200, success := true, message := none,
               data := RespData.gameDoc g2 })
        else (st, [], vErr)
      | _, _ => (st, [], vErr)
    else (st, [], errResp 403 "Forbidden")

/-- Body of PUT /api/games/:id: req.body is merged into the document by
findByIdAndUpdate, so each schema field is an optional update. -/
structure GameUpdate where
  homeTeam : Option String := none
  awayTeam : Option String := none
  homeScore : Option Int := none
  awayScore : Option Int := none
  gameDate : Option Int := none
  status : Option GameStatus := none
  quarter : Option Int := none
  timeRemaining : Option String := none
  venue : Option String := none
  attendance : Option Int := none
  gameStats : Option (List GameStat) := none
deriving DecidableEq, Repr

/-- The schema validators that runValidators re-runs on the updated paths of
a game: required team strings stay nonempty, scores and attendance
non-negative, quarter between 1 and 4. -/
def gameUpdateValid (u : GameUpdate) : Bool :=
  optAll u.homeTeam (fun s => !(s == "")) &&
  optAll u.awayTeam (fun s => !(s == "")) &&
  optAll u.homeScore (fun n => decide (0 ≤ n)) &&
  optAll u.awayScore (fun n => decide (0 ≤ n)) &&
  optAll u.quarter (fun n => decide (1 ≤ n ∧ n ≤ 4)) &&
  optAll u.attendance (fun n => decide (0 ≤ n))

/-- Merge of a findByIdAndUpdate body into a game document. -/
def applyGameUpdate (g : Game) (u : GameUpdate) : Game :=
  { g with
    homeTeam := u.homeTeam.getD g.homeTeam,
    awayTeam := u.awayTeam.getD g.awayTeam,
    homeScore := u.homeScore.getD g.homeScore,
    awayScore := u.awayScore.getD g.awayScore,
    gameDate := u.gameDate.getD g.gameDate,
    status := u.status.getD g.status,
    quarter := u.quarter.getD g.quarter,
    timeRemaining := u.timeRemaining.getD g.timeRemaining,
    venue := u.venue.rec g.venue (fun v => some v),
    attendance := u.attendance.rec g.attendance (fun v => some v),
    gameStats := u.gameStats.getD g.gameStats }

/-- PUT /api/games/:id from routes/games.js: role gate, then
findByIdAndUpdate(req.params.id, req.body) with runValidators (a validator
failure is caught and answered 500 Server error), 404 when the game does not
exist.  The handler performs no ownership check of any kind: the acting
coach is never compared with the teams of the game. -/
def updateGameRoute (st : Store) (actor : Option AuthUser) (gid : String)
    (body : GameUpdate) : Store × Response :=
  match actor with
  | none => (st, errResp 401 "Not authorized")
  | some a =>
    if a.role ∈ [Role.admin, Role.coach] then
      if gameUpdateValid body then
        match st.findGame gid with
        | none => (st, errResp 404 "Game not found")
        | some g =>
          let g2 := applyGameUpdate g body
          ({ st with games := updateBy Game.id gid (fun g0 =>
               applyGameUpdate g0 body) st.games },
           { status := 200, success := true, message := none,
             data := RespData.gameDoc g2 })
      else (st, errResp 500 "Server error")
    else (st, errResp 403 "Forbidden")

/-- DELETE /api/games/:id from routes/games.js: role gate (admin or coach),
findByIdAndDelete, 404 when absent.  No ownership check is performed. -/
def deleteGameRoute (st : Store) (actor : Option AuthUser) (gid : String) :
    Store × Response :=
  match actor with
  | none => (st, errResp 401 "Not authorized")
  | some a =>
    if a.role ∈ [Role.admin, Role.coach] then
      match st.findGame gid with
      | none => (st, errResp 404 "Game not found")
      | some _ =>
        ({ st with games := removeBy Game.id gid st.games },
         { status := 200, success := true,
           message := some "Game deleted successfully", data := RespData.nothing })
    else (st, errResp 403 "Forbidden")

/-- Body of PUT /api/teams/:id: req.body merged by findByIdAndUpdate; each
updatable schema field is optional. -/
structure TeamUpdate where
  name : Option String := none
  description : Option String := none
  foundedYear : Option Int := none
  homeVenue : Option String := none
  colors : Option Colors := none
  logo : Option String := none
  isActive : Option Bool := none
deriving DecidableEq, Repr

/-- The Team schema validators re-run by runValidators on updated paths.
The foundedYear upper bound is new Date().getFullYear(), evaluated once at
schema definition; it is passed in as nowYear. -/
def teamUpdateValid (nowYear : Int) (u : TeamUpdate) : Bool :=
  optAll u.name (fun s => !(s == "") && decide (s.length ≤ 50)) &&
  optAll u.description (fun s => decide (s.length ≤ 500)) &&
  optAll u.foundedYear (fun y => decide (1800 ≤ y ∧ y ≤ nowYear)) &&
  optAll u.homeVenue (fun s => decide (s.length ≤ 100))

/-- Merge of a findByIdAndUpdate body into a team document. -/
def applyTeamUpdate (t : Team) (u : TeamUpdate) : Team :=
  { t with
    name := u.name.getD t.name,
    description := match u.description with
      | none => t.description
      | some v => some v,
    foundedYear := match u.foundedYear with
      | none => t.foundedYear
      | some v => some v,
    homeVenue := match u.homeVenue with
      | none => t.homeVenue
      | some v => some v,
    colors := u.colors.getD t.colors,
    logo := match u.logo with
      | none => t.logo
      | some v => some v,
    isActive := u.isActive.getD t.isActive }

/-- PUT /api/teams/:id from the teams router (src/unnamed/part_002): role
gate, findById (404 when absent), then the ownership check — a non-admin
whose id differs from team.coach is answered 403 before any write — then
findByIdAndUpdate with runValidators (failure caught as 500). -/
def updateTeamRoute (nowYear : Int) (st : Store) (actor : Option AuthUser)
    (tid : String) (body : TeamUpdate) : Store × Response :=
  match actor with
  | none => (st, errResp 401 "Not authorized")
  | some a =>
    if a.role ∈ [Role.admin, Role.coach] then
      match st.findTeam tid with
      | none => (st, errResp 404 "Team not found")
      | some t =>
        if a.role ≠ Role.admin ∧ t.coach ≠ a.id then
          (st, errResp 403 "Not authorized to update this team")
        else
          if teamUpdateValid nowYear body then
            let t2 := applyTeamUpdate t body
            ({ st with teams := (updateBy Team.id tid (fun t0 =>
                 applyTeamUpdate t0 body) st.teams) },
             { status := 200, success := true, message := none,
               data := RespData.teamDoc t2 })
          else (st, errResp 500 "Server error")
    else (st, errResp 403 "Forbidden")

/-- DELETE /api/teams/:id from the teams router: role gate, findById (404),
ownership check (403), then the multi-document cleanup — unset team on every
player of the team, pull the team from the coach managedTeams, unset team on
every user referencing it — and finally findByIdAndDelete. -/
def deleteTeamRoute (st : Store) (actor : Option AuthUser) (tid : String) :
    Store × Response :=
  match actor with
  | none => (st, errResp 401 "Not authorized")
  | some a =>
    if a.role ∈ [Role.admin, Role.coach] then
      match st.findTeam tid with
      | none => (st, errResp 404 "Team not found")
      | some t =>
        if a.role ≠ Role.admin ∧ t.coach ≠ a.id then
          (st, errResp 403 "Not authorized to delete this team")
        else
          let st1 := { st with players := (updateWhere
            (fun p : Player => p.team = some tid)
            (fun p => { p with team := none }) st.players) }
          let st2 := { st1 with users := (updateBy StoredUser.id t.coach
            (fun u => { u with managedTeams := pullAll tid u.managedTeams })
            st1.users) }
          let st3 := { st2 with users := (updateWhere
            (fun u : StoredUser => u.team = some tid)
            (fun u => { u with team := none }) st2.users) }
          ({ st3 with teams := removeBy Team.id tid st3.teams },
           { status := 200, success := true,
             message := some "Team deleted successfully",
             data := RespData.nothing })
    else (st, errResp 403 "Forbidden")

/-- POST /api/teams/:id/players from the teams router: role gate, playerId
validated as a MongoId, findById team (404), ownership check (403), findById
player (404), duplicate-membership check (400), then the three reference
writes (player.team, team.players via $addToSet, user.team) and a 200 with
the re-queried team. -/
def addPlayerToTeamRoute (st : Store) (actor : Option AuthUser) (tid : String)
    (playerId : String) : Store × Response :=
  match actor with
  | none => (st, errResp 401 "Not authorized")
  | some a =>
    if a.role ∈ [Role.admin, Role.coach] then
      if isMongoId playerId then
        match st.findTeam tid with
        | none => (st, errResp 404 "Team not found")
        | some t =>
          if a.role ≠ Role.admin ∧ t.coach ≠ a.id then
            (st, errResp 403 "Not authorized to manage this team")
          else
            match st.findPlayer playerId with
            | none => (st, errResp 404 "Player not found")
            | some p =>
              if playerId ∈ t.players then
                (st, errResp 400 "Player is already on this team")
              else
                let st1 := { st with players := (updateBy Player.id playerId
                  (fun p0 => { p0 with team := some t.id }) st.players) }
                let st2 := { st1 with teams := (updateBy Team.id tid
                  (fun t0 => { t0 with players := addToSet t0.players playerId })
                  st1.teams) }
                let st3 := { st2 with users := (updateBy StoredUser.id p.user
                  (fun u => { u with team := some t.id }) st2.users) }
                (st3,
                 { status := 200, success := true, message := none,
                   data := match st3.findTeam tid with
                     | some t2 => RespData.teamDoc t2
                     | none => RespData.nothing })
      else (st, vErr)
    else (st, errResp 403 "Forbidden")

/-- DELETE /api/teams/:id/players/:playerId from the teams router: role
gate, findById team (404), ownership check (403), findById player (404),
then three writes — pull the player from team.players, set player.team to
null, set user.team to null — and a 200 with the re-queried team.  No check
that the player was actually on the team. -/
def removePlayerFromTeamRoute (st : Store) (actor : Option AuthUser)
    (tid : String) (playerId : String) : Store × Response :=
  match actor with
  | none => (st, errResp 401 "Not authorized")
  | some a =>
    if a.role ∈ [Role.admin, Role.coach] then
      match st.findTeam tid with
      | none => (st, errResp 404 "Team not found")
      | some t =>
        if a.role ≠ Role.admin ∧ t.coach ≠ a.id then
          (st, errResp 403 "Not authorized to manage this team")
        else
          match st.findPlayer playerId with
          | none => (st, errResp 404 "Player not found")
          | some p =>
            let st1 := { st with teams := (updateBy Team.id tid
              (fun t0 => { t0 with players := pullAll playerId t0.players })
              st.teams) }
            let st2 := { st1 with players := (updateBy Player.id playerId
              (fun p0 => { p0 with team := none }) st1.players) }
            let st3 := { st2 with users := (updateBy StoredUser.id p.user
              (fun u => { u with team := none }) st2.users) }
            (st3,
             { status := 200, success := true, message := none,
               data := match st3.findTeam tid with
                 | some t2 => RespData.teamDoc t2
                 | none => RespData.nothing })
    else (st, errResp 403 "Forbidden")

/-- Body of POST /api/players.  Strings are taken as sent; the numeric
fields come from arbitrary JSON, so each is an optional integer (none models
a missing or non-integer value, which express-validator isInt rejects); the
position is the sent string, checked against the enumeration. -/
structure PlayerBody where
  name : String
  user : String
  team : String
  position : String
  jerseyNumber : Option Int
  height : String
  weight : Option Int
  age : Option Int
deriving DecidableEq, Repr

/-- The position enumeration check of express-validator isIn. -/
def posOfString (s : String) : Option Pos :=
  if s = "PG" then some Pos.PG
  else if s = "SG" then some Pos.SG
  else if s = "SF" then some Pos.SF
  else if s = "PF" then some Pos.PF
  else if s = "C" then some Pos.C
  else none

/-- POST /api/players from the players router (src/unnamed/part_002): role
gate, express-validator checks, then in order — user exists with player
role (400), team exists (400), coach ownership of the target team (403),
no existing player profile for the user (400), jersey number free on the
team (400) — and only then the create plus the two back-reference writes.
newPlayerId stands for the ObjectId MongoDB mints for the created document
and now for the Date.now default of createdAt. -/
def createPlayerRoute (st : Store) (actor : Option AuthUser)
    (newPlayerId : String) (now : Int) (b : PlayerBody) : Store × Response :=
  match actor with
  | none => (st, errResp 401 "Not authorized")
  | some a =>
    if a.role ∈ [Role.admin, Role.coach] then
      match posOfString b.position, b.jerseyNumber, b.weight, b.age with
      | some pos, some jn, some w, some ag =>
        if b.name ≠ "" ∧ isMongoId b.user ∧ isMongoId b.team ∧
            (0 ≤ jn ∧ jn ≤ 99) ∧ b.height ≠ "" ∧
            (100 ≤ w ∧ w ≤ 400) ∧ (16 ≤ ag ∧ ag ≤ 50) then
          match st.findUser b.user with
          | none => (st, errResp 400 "User must exist and have player role")
          | some u =>
            if u.role ≠ Role.player then
              (st, errResp 400 "User must exist and have player role")
            else
              match st.findTeam b.team with
              | none => (st, errResp 400 "Team not found")
              | some te =>
                if a.role = Role.coach ∧ te.coach ≠ a.id then
                  (st, errResp 403 "Not authorized to add players to this team")
                else
                  match findWhere (fun p : Player => p.user = b.user) st.players with
                  | some _ => (st, errResp 400 "User already has a player profile")
                  | none =>
                    match findWhere (fun p : Player =>
                        p.team = some b.team ∧ p.jerseyNumber = jn) st.players with
                    | some _ =>
                      (st, errResp 400 "Jersey number already taken in this team")
                    | none =>
                      let newP : Player :=
                        { id := newPlayerId, name := b.name, user := b.user,
                          team := some b.team, position := pos,
                          jerseyNumber := jn, height := b.height, weight := w,
                          age := ag,
                          stats := { pointsPerGame := 0, reboundsPerGame := 0,
                                     assistsPerGame := 0, stealsPerGame := 0,
                                     blocksPerGame := 0 },
                          isActive := true, createdAt := now }
                      let st1 := { st with players := st.players ++ [newP] }
                      let st2 := { st1 with users := (updateBy StoredUser.id b.user
                        (fun u0 =>
                          { u0 with
                            team := some b.team,
                            playerProfile := some newPlayerId })
                        st1.users) }
                      let st3 := { st2 with teams := (updateBy Team.id b.team
                        (fun t0 => { t0 with players := addToSet t0.players newPlayerId })
                        st2.teams) }
                      (st3,
                       { status := 201, success := true, message := none,
                         data := match st3.findPlayer newPlayerId with
                           | some pp => RespData.playerDoc pp
                           | none => RespData.nothing })
        else (st, vErr)
      | _, _, _, _ => (st, vErr)
    else (st, errResp 403 "Forbidden")

/-- Body of PUT /api/players/:id: req.body merged by findByIdAndUpdate. -/
structure PlayerUpdate where
  name : Option String := none
  position : Option Pos := none
  jerseyNumber : Option Int := none
  height : Option String := none
  weight : Option Int := none
  age : Option Int := none
  isActive : Option Bool := none
deriving DecidableEq, Repr

/-- The Player schema validators re-run by runValidators on updated
paths. -/
def playerUpdateValid (u : PlayerUpdate) : Bool :=
  optAll u.name (fun s => !(s == "") && decide (s.length ≤ 50)) &&
  optAll u.jerseyNumber (fun n => decide (0 ≤ n ∧ n ≤ 99)) &&
  optAll u.height (fun s => !(s == "")) &&
  optAll u.weight (fun n => decide (100 ≤ n ∧ n ≤ 400)) &&
  optAll u.age (fun n => decide (16 ≤ n ∧ n ≤ 50))

/-- Merge of a findByIdAndUpdate body into a player document. -/
def applyPlayerUpdate (p : Player) (u : PlayerUpdate) : Player :=
  { p with
    name := u.name.getD p.name,
    position := u.position.getD p.position,
    jerseyNumber := u.jerseyNumber.getD p.jerseyNumber,
    height := u.height.getD p.height,
    weight := u.weight.getD p.weight,
    age := u.age.getD p.age,
    isActive := u.isActive.getD p.isActive }

/-- PUT /api/players/:id from the players router: role gate, findById with
populate of the team (404 when the player is absent), then the ownership
check for a coach — reading player.team.coach throws when the player has no
team or the team document is gone, which the catch maps to 500; an admin
skips the read.  Then findByIdAndUpdate with runValidators (failure caught
as 500). -/
def updatePlayerRoute (st : Store) (actor : Option AuthUser) (pid : String)
    (body : PlayerUpdate) : Store × Response :=
  match actor with
  | none => (st, errResp 401 "Not authorized")
  | some a =>
    if a.role ∈ [Role.admin, Role.coach] then
      match st.findPlayer pid with
      | none => (st, errResp 404 "Player not found")
      | some p =>
        if a.role = Role.coach then
          match p.team.bind st.findTeam with
          | none => (st, errResp 500 "Server error")
          | some t =>
            if t.coach ≠ a.id then
              (st, errResp 403 "Not authorized to update this player")
            else
              if playerUpdateValid body then
                ({ st with players := (updateBy Player.id pid
                    (fun p0 => applyPlayerUpdate p0 body) st.players) },
                 { status := 200, success := true, message := none,
                   data := RespData.playerDoc (applyPlayerUpdate p body) })
              else (st, errResp 500 "Server error")
        else
          if playerUpdateValid body then
            ({ st with players := (updateBy Player.id pid
                (fun p0 => applyPlayerUpdate p0 body) st.players) },
             { status := 200, success := true, message := none,
               data := RespData.playerDoc (applyPlayerUpdate p body) })
          else (st, errResp 500 "Server error")
    else (st, errResp 403 "Forbidden")

/-- DELETE /api/players/:id from the players router: role gate, findById
with populate of the team (404 when the player is absent).  A coach is then
checked against player.team.coach (403 when not the owner); both for a coach
at that read and for an admin at the later player.team._id read, a missing
team reference or team document throws, which the catch maps to 500 before
any write.  On the success path the three writes happen in order: pull the
player id from the team players list, unset team and playerProfile on the
linked user, and delete the player document. -/
def deletePlayerRoute (st : Store) (actor : Option AuthUser) (pid : String) :
    Store × Response :=
  match actor with
  | none => (st, errResp 401 "Not authorized")
  | some a =>
    if a.role ∈ [Role.admin, Role.coach] then
      match st.findPlayer pid with
      | none => (st, errResp 404 "Player not found")
      | some p =>
        match p.team.bind st.findTeam with
        | none => (st, errResp 500 "Server error")
        | some t =>
          if a.role = Role.coach ∧ t.coach ≠ a.id then
            (st, errResp 403 "Not authorized to delete this player")
          else
            let st1 := { st with teams := (updateBy Team.id t.id
              (fun t0 => { t0 with players := pullAll p.id t0.players })
              st.teams) }
            let st2 := { st1 with users := (updateBy StoredUser.id p.user
              (fun u =>
                { u with
                  team := none,
                  playerProfile := none })
              st1.users) }
            let st3 := { st2 with players := removeBy Player.id pid st2.players }
            (st3,
             { status := 200, success := true,
               message := some "Player deleted successfully",
               data := RespData.nothing })
    else (st, errResp 403 "Forbidden")

/-- The pre-save hook of models/Team.js: recompute stats.winPercentage from
stats.wins and stats.losses before the document is written. -/
def teamPreSave (t : Team) : Team :=
  let totalGames := t.stats.wins + t.stats.losses
  if 0 < totalGames then
    { t with stats := { t.stats with
        winPercentage := (t.stats.wins : ℚ) / (totalGames : ℚ) } }
  else
    { t with stats := { t.stats with winPercentage := 0 } }

/-- Document.save for a team: run the pre-save hook, then write the document
back (replacing the stored document with this id, or inserting it). -/
def saveTeam (st : Store) (t : Team) : Store :=
  match st.findTeam t.id with
  | some _ =>
    { st with teams := updateBy Team.id t.id (fun _ => teamPreSave t) st.teams }
  | none => { st with teams := st.teams ++ [teamPreSave t] }

theorem findBy_updateBy_key {α : Type} (f : α → String) (id : String) (g : α → α)
    (hg : ∀ x, f x = id → f (g x) = id) (l : List α) :
    findBy f id (updateBy f id g l) = Option.map g (findBy f id l) := by
  induction l with
  | nil => simp [findBy, updateBy]
  | cons y ys ih =>
    by_cases hy : f y = id
    · simp [findBy, updateBy, if_pos hy, hg y hy, hy]
    · simp [findBy, updateBy, if_neg hy, hy, ih]

theorem teamPreSave_id (t : Team) : (teamPreSave t).id = t.id := by
  by_cases h0 : 0 < t.stats.wins + t.stats.losses <;> simp [teamPreSave, h0]

theorem teamPreSave_wins (t : Team) : (teamPreSave t).stats.wins = t.stats.wins := by
  by_cases h0 : 0 < t.stats.wins + t.stats.losses <;> simp [teamPreSave, h0]

theorem teamPreSave_losses (t : Team) :
    (teamPreSave t).stats.losses = t.stats.losses := by
  by_cases h0 : 0 < t.stats.wins + t.stats.losses <;> simp [teamPreSave, h0]

theorem saveTeam_find (st : Store) (t : Team) :
    (saveTeam st t).findTeam t.id = some (teamPreSave t) := by
  unfold saveTeam Store.findTeam
  cases hf : findBy Team.id t.id st.teams with
  | some t0 =>
    simp only [hf]
    rw [findBy_updateBy_key Team.id t.id _ (fun x _ => teamPreSave_id t)]
    simp [Store.findTeam, hf]
  | none =>
    simp only [hf]
    exact findBy_append_right Team.id t.id st.teams (teamPreSave t) hf (teamPreSave_id t)

/-- Claim C6: for every team document saved, after the pre-save
recomputation the stored win percentage equals wins/(wins+losses) when
wins+losses > 0, and equals 0 when both wins and losses are zero. -/
theorem team_presave_win_percentage (st : Store) (t t2 : Team)
    (h : (saveTeam st t).findTeam t.id = some t2) :
    (0 < t2.stats.wins + t2.stats.losses →
      t2.stats.winPercentage =
        (t2.stats.wins : ℚ) / ((t2.stats.wins : ℚ) + (t2.stats.losses : ℚ))) ∧
    (t2.stats.wins = 0 ∧ t2.stats.losses = 0 → t2.stats.winPercentage = 0) := by
  have hsave := saveTeam_find st t
  rw [h] at hsave
  have ht2 : t2 = teamPreSave t := by
    injection hsave
  subst ht2
  rw [teamPreSave_wins, teamPreSave_losses]
  constructor
  · intro hpos
    simp only [teamPreSave, if_pos hpos]
    push_cast
    rfl
  · rintro ⟨hw, hl⟩
    have h0 : ¬ 0 < t.stats.wins + t.stats.losses := by
      rw [hw, hl]
      simp
    simp [teamPreSave, h0]

/-- ObjectId of the coach who owns the example team. -/
def idCoach1 : String := "c0ffee000000000000000001"

/-- ObjectId of a second coach, owner of nothing. -/
def idCoach2 : String := "c0ffee000000000000000002"

/-- ObjectId of an admin user. -/
def idAdmin : String := "c0ffee000000000000000003"

/-- ObjectId of the player-role user linked to the example player. -/
def idUserP : String := "c0ffee000000000000000004"

/-- ObjectId of a player-role user with no player profile yet. -/
def idUserP2 : String := "c0ffee000000000000000005"

/-- ObjectId of the example team. -/
def idTeam1 : String := "7ea0000000000000000000a1"

/-- ObjectId of the example player. -/
def idPlayer1 : String := "b0a0000000000000000000a1"

/-- ObjectId of the example game. -/
def idGame1 : String := "9a3e0000000000000000a001"

def exCoach1 : StoredUser :=
  { id := idCoach1, name := "Alice", role := Role.coach, team := none,
    playerProfile := none, managedTeams := [idTeam1] }

def exCoach2 : StoredUser :=
  { id := idCoach2, name := "Carol", role := Role.coach, team := none,
    playerProfile := none, managedTeams := [] }

def exAdminUser : StoredUser :=
  { id := idAdmin, name := "Root", role := Role.admin, team := none,
    playerProfile := none, managedTeams := [] }

def exUserP : StoredUser :=
  { id := idUserP, name := "Bob", role := Role.player, team := some idTeam1,
    playerProfile := some idPlayer1, managedTeams := [] }

def exUserP2 : StoredUser :=
  { id := idUserP2, name := "Dan", role := Role.player, team := none,
    playerProfile := none, managedTeams := [] }

def exTeam1 : Team :=
  { id := idTeam1, name := "Hawks", coach := idCoach1, description := none,
    foundedYear := none, homeVenue := none,
    colors := { primary := "#000000", secondary := "#FFFFFF" }, logo := none,
    isActive := true, players := [idPlayer1],
    stats := { wins := 2, losses := 1, winPercentage := 0 },
    createdAt := 0 }

def exPlayer1 : Player :=
  { id := idPlayer1, name := "Bob", user := idUserP, team := some idTeam1,
    position := Pos.PG, jerseyNumber := 23, height := "196cm", weight := 200,
    age := 25,
    stats := { pointsPerGame := 0, reboundsPerGame := 0, assistsPerGame := 0,
               stealsPerGame := 0, blocksPerGame := 0 },
    isActive := true, createdAt := 0 }

def exGame1 : Game :=
  { id := idGame1, homeTeam := "Hawks", awayTeam := "Bulls", homeScore := 0,
    awayScore := 0, gameDate := 100, status := GameStatus.scheduled, quarter := 1,
    timeRemaining := "12:00", venue := none, attendance := none, gameStats := [],
    createdAt := 0 }

def exStore : Store :=
  { users := [exCoach1, exCoach2, exAdminUser, exUserP, exUserP2],
    teams := [exTeam1], players := [exPlayer1], games := [exGame1] }

def exAdminAuth : AuthUser := { id := idAdmin, role := Role.admin }

def exCoach1Auth : AuthUser := { id := idCoach1, role := Role.coach }

def exCoach2Auth : AuthUser := { id := idCoach2, role := Role.coach }

/-- jwt.verify under the process secret, for the concrete socket scenarios:
one valid token, everything else fails verification. -/
def exVerify : String → Option String :=
  fun s => if s = "tok1" then some idCoach1 else none

/-- Witness for C6 at a concrete team with 2 wins and 1 loss: the saved
document carries win percentage 2/3. -/
theorem team_presave_win_percentage_witness :
    (saveTeam exStore exTeam1).findTeam exTeam1.id = some (teamPreSave exTeam1) ∧
    (teamPreSave exTeam1).stats.winPercentage = (2 : ℚ) / 3 := by
  have h := saveTeam_find exStore exTeam1
  have h2 := (team_presave_win_percentage exStore exTeam1 (teamPreSave exTeam1) h).1
  refine ⟨h, ?_⟩
  have h3 := h2 (by rw [teamPreSave_wins, teamPreSave_losses]; decide)
  rw [h3, teamPreSave_wins, teamPreSave_losses]
  norm_num [exTeam1]

/-- Claim C4: for every updateGame event emitted on the real-time channel by
a connection whose attached user role is coach or admin, the raw payload is
rebroadcast unchanged as a single gameUpdated event to the room named by the
payload gameId, while the document store is returned untouched and the
result does not depend on the store at all — in particular no check that the
acting coach owns the target game is ever made. -/
theorem updateGame_rebroadcasts_raw (st : Store) (c : Conn) (u : SockUser)
    (d : UpdateData) (hn : c.nsp = gameNamespace) (hu : c.user = some u)
    (hr : u.role = Role.admin ∨ u.role = Role.coach) :
    dispatchEvent st c (ClientEvent.updateGame d) =
      (st, c, [{ target := EmitTarget.room mainNamespace d.gameId,
                 event := "gameUpdated",
                 payload := Payload.updatePayload d }]) := by
  simp [dispatchEvent, updateGameHandler, hn, hu, hr]

/-- Connection in the game namespace with a coach user attached, pushing a
raw payload that matches no persisted document. -/
def exConnCoach : Conn :=
  { sid := 5, nsp := gameNamespace,
    user := some { id := idCoach2, name := "Carol", role := Role.coach },
    joined := [] }

def exRawUpdate : UpdateData :=
  { gameId := idGame1, rest := [("homeScore", "999")] }

/-- Witness for C4: the coach connection pushes a raw payload and it is
rebroadcast as-is with no store write. -/
theorem updateGame_rebroadcasts_raw_witness :
    dispatchEvent exStore exConnCoach (ClientEvent.updateGame exRawUpdate) =
      (exStore, exConnCoach,
       [{ target := EmitTarget.room mainNamespace exRawUpdate.gameId,
          event := "gameUpdated",
          payload := Payload.updatePayload exRawUpdate }]) :=
  updateGame_rebroadcasts_raw exStore exConnCoach _ exRawUpdate rfl rfl (Or.inr rfl)

/-- Claim C10: for every updateGame event from a connection whose attached
user is neither admin nor coach (or which has no attached user), nothing
happens: no emit of any kind (so neither gameUpdated nor errorMessage), and
the store is unchanged. -/
theorem updateGame_silent_drop (st : Store) (c : Conn) (d : UpdateData)
    (h : ∀ u, c.user = some u → u.role ≠ Role.admin ∧ u.role ≠ Role.coach) :
    dispatchEvent st c (ClientEvent.updateGame d) = (st, c, []) := by
  unfold dispatchEvent
  by_cases hn : c.nsp = gameNamespace
  · rw [if_pos hn]
    unfold updateGameHandler
    cases hu : c.user with
    | none => simp
    | some u =>
      have hr := h u hu
      simp [hr.1, hr.2]
  · rw [if_neg hn]

/-- Connection in the game namespace with a player-role user attached and
subscribed to the example game room. -/
def exConnPlayer : Conn :=
  { sid := 6, nsp := gameNamespace,
    user := some { id := idUserP, name := "Bob", role := Role.player },
    joined := [idGame1] }

/-- Witness for C10: a player-role connection pushes an update and nothing
is emitted, nothing stored. -/
theorem updateGame_silent_drop_witness :
    dispatchEvent exStore exConnPlayer (ClientEvent.updateGame exRawUpdate) =
      (exStore, exConnPlayer, []) :=
  updateGame_silent_drop exStore exConnPlayer exRawUpdate
    (fun u hu => by
      have hu2 : u = { id := idUserP, name := "Bob", role := Role.player } :=
        (Option.some.inj hu).symm
      subst hu2
      exact ⟨by decide, by decide⟩)

/-- Claim C8: every connection handled by the game gateway namespace,
whatever its attached user or role (authenticated ones included), that emits
joinGame(gameId) is added to the room named gameId; the handler applies no
authorization check of any kind, since the conclusion holds for every
connection state and every room name. -/
theorem joinGame_joins_room (st : Store) (c : Conn) (gid : String)
    (hn : c.nsp = gameNamespace) :
    dispatchEvent st c (ClientEvent.joinGame gid) =
      (st, { c with joined := gid :: c.joined }, []) ∧
    gid ∈ (dispatchEvent st c (ClientEvent.joinGame gid)).2.1.joined := by
  constructor
  · simp [dispatchEvent, hn, joinGameHandler]
  · simp [dispatchEvent, hn, joinGameHandler]

/-- Witness for C8: the player-role connection joins an arbitrary game room
with no restriction. -/
theorem joinGame_joins_room_witness :
    dispatchEvent exStore exConnPlayer (ClientEvent.joinGame "someOtherGame") =
      (exStore, { exConnPlayer with joined := "someOtherGame" :: exConnPlayer.joined },
       []) ∧
    "someOtherGame" ∈
      (dispatchEvent exStore exConnPlayer (ClientEvent.joinGame "someOtherGame")).2.1.joined :=
  joinGame_joins_room exStore exConnPlayer "someOtherGame" rfl

/-- Claim C3 (code bug): the credential gate behaves as claimed on the main
namespace — no token, a bad token and an unknown user are rejected during
the handshake, and a valid token gets the resolved user attached — but
io.use(protectSocket) registers the middleware on the main namespace only,
while initGameSockets registers the joinGame/updateGame/disconnect handlers
on the custom io.of("/api/game") namespace, which has no middleware at all.
A tokenless handshake with that namespace is therefore accepted with no user
attached, and its event handlers fire: here the joinGame handler runs for
the unauthenticated connection. -/
theorem socket_auth_bypassed_on_game_namespace :
    connectSocket exVerify exStore mainNamespace 1 none =
      ConnectResult.rejected "No token provided" ∧
    connectSocket exVerify exStore mainNamespace 2 (some "bad") =
      ConnectResult.rejected "Unauthorized" ∧
    connectSocket exVerify exStore mainNamespace 3 (some "tok1") =
      ConnectResult.accepted
        { sid := 3, nsp := mainNamespace,
          user := some { id := idCoach1, name := "Alice", role := Role.coach },
          joined := [] } ∧
    connectSocket exVerify exStore gameNamespace 4 none =
      ConnectResult.accepted
        { sid := 4, nsp := gameNamespace, user := none, joined := [] } ∧
    (dispatchEvent exStore
        { sid := 4, nsp := gameNamespace, user := none, joined := [] }
        (ClientEvent.joinGame idGame1)).2.1.joined = [idGame1] := by
  refine ⟨?_, ?_, ?_, ?_, ?_⟩ <;> decide

/-- The output of the REST score update PUT /api/games/:id/score with body
homeScore 57, awayScore 61 on the example game, performed by an admin. -/
def c1Out : Store × List Emit × Response :=
  updateScoreRoute exStore (some exAdminAuth) idGame1
    { homeScore := some 57, awayScore := some 61 }

/-- The connection state of a viewer that completed the joinGame flow for
the example game: it connected to the io.of("/api/game") namespace and its
joinGame handler put it in the room named by the game id of that
namespace. -/
def exSubscriber : Conn :=
  { sid := 4, nsp := gameNamespace, user := none, joined := [idGame1] }

/-- Claim C1 (code bug): the REST score update persists the scores and
responds 200 with the updated document, and emits exactly one gameUpdated
event — but io.to targets the room of the main namespace, while every
connection that subscribed via joinGame sits in the equally named room of
the io.of("/api/game") namespace, so the subscribed connection receives
zero gameUpdated events instead of exactly one.  Connections of the main
namespace cannot compensate: no handler is registered there, so joinGame
from a main-namespace connection never joins any room. -/
theorem score_broadcast_misses_subscribers :
    -- the subscriber really is the result of the joinGame flow:
    (dispatchEvent exStore
        { sid := 4, nsp := gameNamespace, user := none, joined := [] }
        (ClientEvent.joinGame idGame1)).2.1 = exSubscriber ∧
    -- the handler persists the scores and answers 200 with the updated doc:
    c1Out.2.2.status = 200 ∧
    c1Out.2.2.data = RespData.gameDoc { exGame1 with homeScore := 57, awayScore := 61 } ∧
    c1Out.1.findGame idGame1 = some { exGame1 with homeScore := 57, awayScore := 61 } ∧
    -- it emits exactly one gameUpdated event, into the main namespace room:
    c1Out.2.1 =
      [{ target := EmitTarget.room mainNamespace idGame1,
         event := "gameUpdated",
         payload := Payload.gameDoc { exGame1 with homeScore := 57, awayScore := 61 } }] ∧
    -- the subscribed connection receives no gameUpdated event at all:
    deliveries exSubscriber c1Out.2.1 "gameUpdated" = [] ∧
    -- and an authenticated main-namespace connection cannot join the room,
    -- because no joinGame handler is registered on the main namespace:
    (dispatchEvent exStore
        { sid := 3, nsp := mainNamespace,
          user := some { id := idCoach1, name := "Alice", role := Role.coach },
          joined := [] }
        (ClientEvent.joinGame idGame1)).2.1.joined = [] := by
  refine ⟨?_, ?_, ?_, ?_, ?_, ?_, ?_⟩ <;> decide

/-- Claim C9: for every successful PUT /api/games/:id/score, only homeScore
and awayScore of the target game change — the updated document agrees with
the old one on every other field — every other game document is untouched,
and the users, teams and players collections are exactly the ones of the
starting store. -/
theorem score_route_frame (st : Store) (a : AuthUser) (gid : String) (g : Game)
    (hs aws : Int)
    (hrole : a.role = Role.admin ∨ a.role = Role.coach)
    (hhs : 0 ≤ hs) (haws : 0 ≤ aws)
    (hg : st.findGame gid = some g) :
    (updateScoreRoute st (some a) gid
        { homeScore := some hs, awayScore := some aws }).2.2.status = 200 ∧
    (updateScoreRoute st (some a) gid
        { homeScore := some hs, awayScore := some aws }).1.users = st.users ∧
    (updateScoreRoute st (some a) gid
        { homeScore := some hs, awayScore := some aws }).1.teams = st.teams ∧
    (updateScoreRoute st (some a) gid
        { homeScore := some hs, awayScore := some aws }).1.players = st.players ∧
    (updateScoreRoute st (some a) gid
        { homeScore := some hs, awayScore := some aws }).1.findGame gid =
      some { g with homeScore := hs, awayScore := aws } ∧
    (∀ g2 ∈ st.games, g2.id ≠ gid →
      g2 ∈ (updateScoreRoute st (some a) gid
        { homeScore := some hs, awayScore := some aws }).1.games) := by
  have hmem : a.role ∈ [Role.admin, Role.coach] := by
    rcases hrole with h | h <;> simp [h]
  have hpos : 0 ≤ hs ∧ 0 ≤ aws := ⟨hhs, haws⟩
  simp only [updateScoreRoute, if_pos hmem, hg, if_pos hpos]
  refine ⟨trivial, trivial, trivial, trivial, ?_, ?_⟩
  · show findBy Game.id gid (updateBy Game.id gid
        (fun g0 => { g0 with homeScore := hs, awayScore := aws }) st.games) =
      some { g with homeScore := hs, awayScore := aws }
    rw [findBy_updateBy_key Game.id gid
        (fun g0 => { g0 with homeScore := hs, awayScore := aws })
        (fun x hx => hx) st.games]
    rw [show findBy Game.id gid st.games = some g from hg]
    rfl
  · intro g2 hg2 hne
    exact mem_updateBy_of_ne Game.id gid _ st.games g2 hg2 hne

/-- Witness for C9: the admin updates the example game to 57:61; status is
200, the players collection (like users and teams) is untouched, and the
stored game keeps all its other fields. -/
theorem score_route_frame_witness :
    (updateScoreRoute exStore (some exAdminAuth) idGame1
        { homeScore := some 57, awayScore := some 61 }).2.2.status = 200 ∧
    (updateScoreRoute exStore (some exAdminAuth) idGame1
        { homeScore := some 57, awayScore := some 61 }).1.players =
      exStore.players ∧
    (updateScoreRoute exStore (some exAdminAuth) idGame1
        { homeScore := some 57, awayScore := some 61 }).1.findGame idGame1 =
      some { exGame1 with homeScore := 57, awayScore := 61 } := by
  have h := score_route_frame exStore exAdminAuth idGame1 exGame1 57 61
    (Or.inl rfl) (by decide) (by decide) (by decide)
  exact ⟨h.1, h.2.2.2.1, h.2.2.2.2.1⟩

/-- The game update a non-owning coach sends in the C2 counterexample. -/
def exGameStatusUpd : GameUpdate := { status := some GameStatus.inProgress }

/-- Claim C2 counterexample: the example game is between the Hawks, coached
by coach 1, and the Bulls; coach 2 owns no team and no game.  Yet PUT
/api/games/:id by coach 2 is answered 200 and the game document is mutated:
the games router checks only the role, never ownership. -/
theorem game_update_by_nonowner_coach_succeeds :
    (updateGameRoute exStore (some exCoach2Auth) idGame1 exGameStatusUpd).2.status
      = 200 ∧
    (updateGameRoute exStore (some exCoach2Auth) idGame1 exGameStatusUpd).1.findGame
      idGame1 = some { exGame1 with status := GameStatus.inProgress } ∧
    (updateGameRoute exStore (some exCoach2Auth) idGame1 exGameStatusUpd).1.findGame
      idGame1 ≠ exStore.findGame idGame1 := by
  refine ⟨?_, ?_, ?_⟩ <;> decide

/-- Claim C2 as amended: on the team routes (update, delete, roster add,
roster remove) and the player routes (create, update, delete) a coach who
does not own the target team — for players, the team of the target player —
is answered 403 and the store is not mutated; the game mutation routes check
only the role, so they are excluded (see the counterexample). -/
theorem nonowner_coach_forbidden_team_player_routes (st : Store) (a : AuthUser)
    (hc : a.role = Role.coach) :
    (∀ nowYear tid t body, st.findTeam tid = some t → t.coach ≠ a.id →
      updateTeamRoute nowYear st (some a) tid body =
        (st, errResp 403 "Not authorized to update this team")) ∧
    (∀ tid t, st.findTeam tid = some t → t.coach ≠ a.id →
      deleteTeamRoute st (some a) tid =
        (st, errResp 403 "Not authorized to delete this team")) ∧
    (∀ tid t pid, st.findTeam tid = some t → t.coach ≠ a.id →
      isMongoId pid = true →
      addPlayerToTeamRoute st (some a) tid pid =
        (st, errResp 403 "Not authorized to manage this team")) ∧
    (∀ tid t pid, st.findTeam tid = some t → t.coach ≠ a.id →
      removePlayerFromTeamRoute st (some a) tid pid =
        (st, errResp 403 "Not authorized to manage this team")) ∧
    (∀ newId now b u te pos jn w ag, posOfString b.position = some pos →
      b.jerseyNumber = some jn → b.weight = some w → b.age = some ag →
      (b.name ≠ "" ∧ isMongoId b.user ∧ isMongoId b.team ∧ (0 ≤ jn ∧ jn ≤ 99) ∧
        b.height ≠ "" ∧ (100 ≤ w ∧ w ≤ 400) ∧ (16 ≤ ag ∧ ag ≤ 50)) →
      st.findUser b.user = some u → u.role = Role.player →
      st.findTeam b.team = some te → te.coach ≠ a.id →
      createPlayerRoute st (some a) newId now b =
        (st, errResp 403 "Not authorized to add players to this team")) ∧
    (∀ pid p t body, st.findPlayer pid = some p →
      p.team.bind st.findTeam = some t → t.coach ≠ a.id →
      updatePlayerRoute st (some a) pid body =
        (st, errResp 403 "Not authorized to update this player")) ∧
    (∀ pid p t, st.findPlayer pid = some p →
      p.team.bind st.findTeam = some t → t.coach ≠ a.id →
      deletePlayerRoute st (some a) pid =
        (st, errResp 403 "Not authorized to delete this player")) := by
  have hmem : a.role ∈ [Role.admin, Role.coach] := by simp [hc]
  have hnadm : a.role ≠ Role.admin := by
    rw [hc]
    decide
  refine ⟨?_, ?_, ?_, ?_, ?_, ?_, ?_⟩
  · intro nowYear tid t body ht hown
    simp only [updateTeamRoute, if_pos hmem, ht, if_pos (And.intro hnadm hown)]
  · intro tid t ht hown
    simp only [deleteTeamRoute, if_pos hmem, ht, if_pos (And.intro hnadm hown)]
  · intro tid t pid ht hown hpid
    simp only [addPlayerToTeamRoute, if_pos hmem, hpid, if_true, ht,
      if_pos (And.intro hnadm hown)]
  · intro tid t pid ht hown
    simp only [removePlayerFromTeamRoute, if_pos hmem, ht,
      if_pos (And.intro hnadm hown)]
  · intro newId now b u te pos jn w ag hpos hjn hw hag hvalid hu hur ht hown
    have hnp : ¬ u.role ≠ Role.player := by
      rw [hur]
      decide
    simp only [createPlayerRoute, if_pos hmem, hpos, hjn, hw, hag,
      if_pos hvalid, hu, if_neg hnp, ht, if_pos (And.intro hc hown)]
  · intro pid p t body hp ht hown
    simp only [updatePlayerRoute, if_pos hmem, hp, if_pos hc, ht, if_pos hown]
  · intro pid p t hp ht hown
    simp only [deletePlayerRoute, if_pos hmem, hp, ht,
      if_pos (And.intro hc hown)]

/-- Witness for the amended C2: coach 2, owner of nothing, is refused on the
team update route and on the player delete route, with the store returned
unchanged. -/
theorem nonowner_coach_forbidden_witness :
    updateTeamRoute 2026 exStore (some exCoach2Auth) idTeam1 {} =
      (exStore, errResp 403 "Not authorized to update this team") ∧
    deletePlayerRoute exStore (some exCoach2Auth) idPlayer1 =
      (exStore, errResp 403 "Not authorized to delete this player") := by
  have h := nonowner_coach_forbidden_team_player_routes exStore exCoach2Auth rfl
  exact ⟨h.1 2026 idTeam1 exTeam1 {} rfl (by decide),
         h.2.2.2.2.2.2 idPlayer1 exPlayer1 exTeam1 rfl rfl (by decide)⟩

/-- Claim C5: when the (team, jerseyNumber) pair of a POST /api/players body
is already in use on that team, no path of the handler ever writes — the
store is returned unchanged and success is false whatever else the request
looks like — and when the request passes every earlier check (validation,
user with player role, existing team, team ownership for a coach, no
existing profile) the response is exactly 400 with the conflict message. -/
theorem create_player_jersey_conflict (st : Store) (a : AuthUser)
    (newId : String) (now : Int) (b : PlayerBody) (jn : Int)
    (hjn : b.jerseyNumber = some jn)
    (htaken : ∃ p ∈ st.players, p.team = some b.team ∧ p.jerseyNumber = jn) :
    (createPlayerRoute st (some a) newId now b).1 = st ∧
    (createPlayerRoute st (some a) newId now b).2.success = false ∧
    (∀ u te pos w ag,
      (a.role = Role.admin ∨ (a.role = Role.coach ∧ te.coach = a.id)) →
      posOfString b.position = some pos → b.weight = some w → b.age = some ag →
      (b.name ≠ "" ∧ isMongoId b.user ∧ isMongoId b.team ∧ (0 ≤ jn ∧ jn ≤ 99) ∧
        b.height ≠ "" ∧ (100 ≤ w ∧ w ≤ 400) ∧ (16 ≤ ag ∧ ag ≤ 50)) →
      st.findUser b.user = some u → u.role = Role.player →
      st.findTeam b.team = some te →
      findWhere (fun p : Player => p.user = b.user) st.players = none →
      createPlayerRoute st (some a) newId now b =
        (st, errResp 400 "Jersey number already taken in this team")) := by
  have hno : findWhere (fun p : Player =>
      p.team = some b.team ∧ p.jerseyNumber = jn) st.players ≠ none := by
    intro hn
    rw [findWhere_eq_none] at hn
    obtain ⟨p, hp, h1, h2⟩ := htaken
    exact hn p hp ⟨h1, h2⟩
  obtain ⟨q, hq⟩ := Option.ne_none_iff_exists'.mp hno
  refine ⟨?_, ?_, ?_⟩
  · unfold createPlayerRoute
    repeat' split
    all_goals simp_all [errResp, vErr]
  · unfold createPlayerRoute
    repeat' split
    all_goals simp_all [errResp, vErr]
  · intro u te pos w ag hrole hpos hw hag hvalid hu hur ht hprofile
    have hmem : a.role ∈ [Role.admin, Role.coach] := by
      rcases hrole with h | h
      · simp [h]
      · simp [h.1]
    have hnp : ¬ u.role ≠ Role.player := by
      rw [hur]
      decide
    have hnown : ¬ (a.role = Role.coach ∧ te.coach ≠ a.id) := by
      rintro ⟨h1, h2⟩
      rcases hrole with h | h
      · rw [h] at h1
        cases h1
      · exact h2 h.2
    simp only [createPlayerRoute, if_pos hmem, hpos, hjn, hw, hag,
      if_pos hvalid, hu, if_neg hnp, ht, if_neg hnown, hprofile, hq]

/-- The conflicting creation body of the C5 witness: jersey 23 on the
example team is already taken by the example player. -/
def exConflictBody : PlayerBody :=
  { name := "Dan", user := idUserP2, team := idTeam1, position := "SG",
    jerseyNumber := some 23, height := "190cm", weight := some 180,
    age := some 22 }

/-- Witness for C5: the owning coach posts a new player with the taken
jersey number; the handler answers 400 with the conflict message and the
store is unchanged. -/
theorem create_player_jersey_conflict_witness :
    createPlayerRoute exStore (some exCoach1Auth)
        "b0a0000000000000000000a2" 0 exConflictBody =
      (exStore, errResp 400 "Jersey number already taken in this team") := by
  have h := create_player_jersey_conflict exStore exCoach1Auth
    "b0a0000000000000000000a2" 0 exConflictBody 23 rfl
    ⟨exPlayer1, by decide, by decide, by decide⟩
  exact h.2.2 exUserP2 exTeam1 Pos.SG 180 22 (Or.inr ⟨rfl, by decide⟩)
    rfl rfl rfl (by decide) rfl rfl rfl rfl

/-- Claim C7: a successful DELETE /api/players/:id by an authorized actor
(an admin, or the coach owning the team of the player) removes the player id
from the players list of the team, clears the team and playerProfile
references of the linked user, and deletes the player document — all three,
and answers 200. -/
theorem delete_player_cleanup (st : Store) (a : AuthUser) (pid : String)
    (p : Player) (tid : String) (t : Team)
    (hrole : a.role = Role.admin ∨ a.role = Role.coach)
    (hp : st.findPlayer pid = some p)
    (ht : p.team = some tid)
    (hteam : st.findTeam tid = some t)
    (hown : a.role = Role.coach → t.coach = a.id) :
    (deletePlayerRoute st (some a) pid).2.status = 200 ∧
    (deletePlayerRoute st (some a) pid).1.findPlayer pid = none ∧
    (∀ t2, (deletePlayerRoute st (some a) pid).1.findTeam tid = some t2 →
      p.id ∉ t2.players) ∧
    (∀ u2, (deletePlayerRoute st (some a) pid).1.findUser p.user = some u2 →
      u2.team = none ∧ u2.playerProfile = none) := by
  have hmem : a.role ∈ [Role.admin, Role.coach] := by
    rcases hrole with h | h <;> simp [h]
  have hbind : p.team.bind st.findTeam = some t := by
    rw [ht]
    exact hteam
  have hcond : ¬ (a.role = Role.coach ∧ t.coach ≠ a.id) := by
    rintro ⟨h1, h2⟩
    exact h2 (hown h1)
  have htid : Team.id t = tid := findBy_key Team.id tid st.teams t hteam
  simp only [deletePlayerRoute, if_pos hmem, hp, hbind, if_neg hcond]
  refine ⟨trivial, ?_, ?_, ?_⟩
  · show findBy Player.id pid (removeBy Player.id pid st.players) = none
    exact findBy_removeBy_self Player.id pid st.players
  · intro t2 ht2
    have ht2b : findBy Team.id tid (updateBy Team.id t.id
        (fun t0 => { t0 with players := pullAll p.id t0.players }) st.teams) =
        some t2 := ht2
    rw [htid, findBy_updateBy_key Team.id tid
        (fun t0 => { t0 with players := pullAll p.id t0.players })
        (fun x hx => hx) st.teams,
      show findBy Team.id tid st.teams = some t from hteam] at ht2b
    have heq2 : t2 = { t with players := pullAll p.id t.players } :=
      (Option.some.inj ht2b).symm
    subst heq2
    exact not_mem_pullAll p.id t.players
  · intro u2 hu2
    have hu2b : findBy StoredUser.id p.user (updateBy StoredUser.id p.user
        (fun u => { u with team := none, playerProfile := none }) st.users) =
        some u2 := hu2
    rw [findBy_updateBy_key StoredUser.id p.user
        (fun u => { u with team := none, playerProfile := none })
        (fun x hx => hx) st.users] at hu2b
    cases hfu : findBy StoredUser.id p.user st.users with
    | none =>
      rw [hfu] at hu2b
      cases hu2b
    | some u0 =>
      rw [hfu] at hu2b
      have heq2 : u2 = { u0 with team := none, playerProfile := none } :=
        (Option.some.inj hu2b).symm
      subst heq2
      exact ⟨rfl, rfl⟩

/-- Witness for C7: the admin deletes the example player; the response is
200, the player document is gone, the team no longer lists the player, and
the linked user references are cleared. -/
theorem delete_player_cleanup_witness :
    (deletePlayerRoute exStore (some exAdminAuth) idPlayer1).2.status = 200 ∧
    (deletePlayerRoute exStore (some exAdminAuth) idPlayer1).1.findPlayer
      idPlayer1 = none := by
  have h := delete_player_cleanup exStore exAdminAuth idPlayer1 exPlayer1
    idTeam1 exTeam1 (Or.inl rfl) rfl rfl rfl
    (fun hco => absurd hco (by decide))
  exact ⟨h.1, h.2.1⟩
